import Mathlib

/-!
Shallow embedding of the digital-key backend's access-control and
dual-persistence core (services + cloud mirror utilities), with theorems
checking the specification's claims against it.

Machine integers are modelled as `Nat`; timestamps (`datetime.utcnow()`)
are `Nat` values passed explicitly as a `now` argument to each operation;
the SQL session is a `Store` record of lists; the local cloud storage
directory is a `Mirror` record of association lists keyed by file address.
Underlying I/O never fails in the model (the services never consult the
returned booleans of the mirror helpers anyway, except where the source
branches on file existence, which the model reproduces).
-/

namespace DKB

/-- `app.models.permission.PermissionLevel`. -/
inductive PermissionLevel where
  | read
  | write
  | execute
  | admin
deriving DecidableEq, Repr

/-- The `.value` of the Python `str`-enum member. -/
def PermissionLevel.value : PermissionLevel → String
  | .read => "read"
  | .write => "write"
  | .execute => "execute"
  | .admin => "admin"

/-- `app.models.user.User` (fields used by the claims). -/
structure User where
  id : Nat
  username : String
  user_type : String
  email : String
deriving DecidableEq, Repr

/-- `app.models.machine.Machine` (fields used by the claims). -/
structure Machine where
  id : Nat
  machine_name : String
  machine_type : String
  is_active : Nat
deriving DecidableEq, Repr

/-- `app.models.digital_key.DigitalKey`. -/
structure DigitalKey where
  id : Nat
  key_name : String
  key_value : String
  owner : String
  machine_id : Nat
  created_at : Nat
  updated_at : Nat
deriving DecidableEq, Repr

/-- `app.models.permission.UserMachinePermission`. -/
structure UserMachinePermission where
  id : Nat
  user_id : Nat
  machine_id : Nat
  digital_key_id : Nat
  permission_level : PermissionLevel
  is_active : Bool
  created_at : Nat
  updated_at : Nat
  revoked_at : Option Nat
deriving DecidableEq, Repr

/-- The relational Entity Store: one list per table, queried with `find?`
(SQLAlchemy `.filter(...).first()`). -/
structure Store where
  users : List User
  machines : List Machine
  keys : List DigitalKey
  perms : List UserMachinePermission
deriving DecidableEq, Repr

/-- `app.schemas.access.UserMachinePermissionCreate`. -/
structure UserMachinePermissionCreate where
  user_id : Nat
  machine_id : Nat
  digital_key_id : Nat
  permission_level : PermissionLevel
deriving DecidableEq, Repr

/-- `app.schemas.access.UserMachinePermissionUpdate` (both fields optional). -/
structure UserMachinePermissionUpdate where
  permission_level : Option PermissionLevel
  is_active : Option Bool
deriving DecidableEq, Repr

/-- `app.schemas.digital_key.DigitalKeyCreate`. -/
structure DigitalKeyCreate where
  key_name : String
  key_value : String
  owner : String
  machine_id : Nat
deriving DecidableEq, Repr

/-- `app.schemas.access.UserAccessResponse`. -/
structure UserAccessResponse where
  user_id : Nat
  username : String
  machine_id : Nat
  machine_name : String
  permission_level : PermissionLevel
  is_active : Bool
  created_at : Nat
deriving DecidableEq, Repr

/-! ## Mirror Store (`app.utils.cloud`) -/

/-- The permission dict built by the permission service before a cloud
call; exactly one of the three time fields is populated per call site. -/
structure PermPayload where
  user_id : Nat
  machine_id : Nat
  digital_key_id : Nat
  permission_level : String
  is_active : Bool
  created_at : Option Nat := none
  updated_at : Option Nat := none
  revoked_at : Option Nat := none
deriving DecidableEq, Repr

/-- The JSON document written to `perm_{id}.json`. -/
structure PermSnapshot where
  id : Nat
  user_id : Nat
  machine_id : Nat
  digital_key_id : Nat
  permission_level : String
  is_active : Bool
  stamped_at : Nat
  original_data : PermPayload
deriving DecidableEq, Repr

/-- The data dict passed to `upload_data_to_cloud` for a digital key. -/
structure KeyPayload where
  key_name : String
  key_value : String
  owner : String
  machine_id : Nat
deriving DecidableEq, Repr

/-- The JSON document written to `{id}_{name}.json` in the keys bucket. -/
structure KeySnapshot where
  id : Nat
  key_name : String
  owner : String
  uploaded_at : Nat
  original_data : KeyPayload
deriving DecidableEq, Repr

/-- File address of a digital-key snapshot: the id and the
space-sanitized key name composing the file name `{id}_{name}.json`. -/
structure KeyAddress where
  id : Nat
  name : String
deriving DecidableEq, Repr

/-- `key_name.replace(' ', '_')` from the file-name construction.
Character 32 is the space, 95 the underscore. -/
def sanitize (s : String) : String :=
  String.mk (s.data.map (fun c => if c = Char.ofNat 32 then Char.ofNat 95 else c))

/-- The local cloud storage state: snapshot files and metadata indexes of
the `digital-keys` bucket and of the `permissions` bucket. -/
structure Mirror where
  keyFiles : List (KeyAddress × KeySnapshot)
  keyIndex : List (Nat × String × Nat)
  permFiles : List (Nat × PermSnapshot)
  permIndex : List (Nat × Nat)
deriving DecidableEq, Repr

/-- `app.utils.cloud.upload_data_to_cloud`: overwrite the file at
`{key_id}_{sanitized key_name}.json` and re-index the id. -/
def upload_data_to_cloud (m : Mirror) (data : KeyPayload) (key_id : Nat)
    (key_name : String) (now : Nat) : Bool × Mirror :=
  let addr : KeyAddress := ⟨key_id, sanitize key_name⟩
  let snap : KeySnapshot :=
    { id := key_id, key_name := data.key_name, owner := data.owner,
      uploaded_at := now, original_data := data }
  (true,
    { m with
      keyFiles := m.keyFiles.filter (fun e => e.1 != addr) ++ [(addr, snap)],
      keyIndex := m.keyIndex.filter (fun e => e.1 != key_id) ++ [(key_id, key_name, now)] })

/-- `app.utils.cloud.download_data_from_cloud`. -/
def download_data_from_cloud (m : Mirror) (key_id : Nat) (key_name : String) :
    Option KeySnapshot :=
  (m.keyFiles.find? (fun e => e.1 == (⟨key_id, sanitize key_name⟩ : KeyAddress))).map (·.2)

/-- `app.utils.cloud.delete_data_from_cloud`: reports `false` when the
file is absent, otherwise removes it and its index entry. -/
def delete_data_from_cloud (m : Mirror) (key_id : Nat) (key_name : String) :
    Bool × Mirror :=
  let addr : KeyAddress := ⟨key_id, sanitize key_name⟩
  match m.keyFiles.find? (fun e => e.1 == addr) with
  | none => (false, m)
  | some _ =>
    (true,
      { m with
        keyFiles := m.keyFiles.filter (fun e => e.1 != addr),
        keyIndex := m.keyIndex.filter (fun e => e.1 != key_id) })

/-- `app.utils.cloud.upload_permission_to_cloud`: overwrite
`perm_{permission_id}.json` and re-index the id. -/
def upload_permission_to_cloud (m : Mirror) (permission_data : PermPayload)
    (permission_id : Nat) (now : Nat) : Bool × Mirror :=
  let snap : PermSnapshot :=
    { id := permission_id, user_id := permission_data.user_id,
      machine_id := permission_data.machine_id,
      digital_key_id := permission_data.digital_key_id,
      permission_level := permission_data.permission_level,
      is_active := permission_data.is_active,
      stamped_at := now, original_data := permission_data }
  (true,
    { m with
      permFiles := m.permFiles.filter (fun e => e.1 != permission_id) ++ [(permission_id, snap)],
      permIndex := m.permIndex.filter (fun e => e.1 != permission_id) ++ [(permission_id, now)] })

/-- `app.utils.cloud.download_permission_from_cloud`. -/
def download_permission_from_cloud (m : Mirror) (permission_id : Nat) :
    Option PermSnapshot :=
  (m.permFiles.find? (fun e => e.1 == permission_id)).map (·.2)

/-- `app.utils.cloud.delete_permission_from_cloud`: reports `false` when
the file is absent, otherwise removes it and its index entry. -/
def delete_permission_from_cloud (m : Mirror) (permission_id : Nat) :
    Bool × Mirror :=
  match m.permFiles.find? (fun e => e.1 == permission_id) with
  | none => (false, m)
  | some _ =>
    (true,
      { m with
        permFiles := m.permFiles.filter (fun e => e.1 != permission_id),
        permIndex := m.permIndex.filter (fun e => e.1 != permission_id) })

/-- `app.utils.cloud.update_permission_in_cloud`: only overwrites when the
file already exists (otherwise reports `false`); does not touch the index. -/
def update_permission_in_cloud (m : Mirror) (permission_data : PermPayload)
    (permission_id : Nat) (now : Nat) : Bool × Mirror :=
  match m.permFiles.find? (fun e => e.1 == permission_id) with
  | none => (false, m)
  | some _ =>
    let snap : PermSnapshot :=
      { id := permission_id, user_id := permission_data.user_id,
        machine_id := permission_data.machine_id,
        digital_key_id := permission_data.digital_key_id,
        permission_level := permission_data.permission_level,
        is_active := permission_data.is_active,
        stamped_at := now, original_data := permission_data }
    (true,
      { m with
        permFiles := m.permFiles.filter (fun e => e.1 != permission_id) ++ [(permission_id, snap)] })

/-! ## Permission service (`app.services.permission_service`) -/

/-- Autoincrement primary key for a new permission row. -/
def freshPermId (db : Store) : Nat :=
  db.perms.foldr (fun p a => max p.id a) 0 + 1

/-- Autoincrement primary key for a new digital-key row. -/
def freshKeyId (db : Store) : Nat :=
  db.keys.foldr (fun k a => max k.id a) 0 + 1

/-- Outcome of `grant_user_machine_access`: the created row, or one of the
two error dicts it can return. -/
inductive GrantServiceResult where
  | success (p : UserMachinePermission)
  | keyNotFound
  | keyMachineMismatch
deriving DecidableEq, Repr

/-- `app.services.permission_service.grant_user_machine_access`: validate
the key exists and is bound to the requested machine, insert the row with
`is_active=True`, then upload the snapshot to the permissions bucket. -/
def grant_user_machine_access (db : Store) (m : Mirror)
    (permission : UserMachinePermissionCreate) (now : Nat) :
    GrantServiceResult × Store × Mirror :=
  match db.keys.find? (fun k => k.id == permission.digital_key_id) with
  | none => (.keyNotFound, db, m)
  | some digital_key =>
    if digital_key.machine_id != permission.machine_id then
      (.keyMachineMismatch, db, m)
    else
      let pid := freshPermId db
      let p : UserMachinePermission :=
        { id := pid, user_id := permission.user_id,
          machine_id := permission.machine_id,
          digital_key_id := permission.digital_key_id,
          permission_level := permission.permission_level,
          is_active := true, created_at := now, updated_at := now,
          revoked_at := none }
      let permission_data : PermPayload :=
        { user_id := p.user_id, machine_id := p.machine_id,
          digital_key_id := p.digital_key_id,
          permission_level := p.permission_level.value,
          is_active := p.is_active, created_at := some p.created_at }
      (.success p, { db with perms := db.perms ++ [p] },
        (upload_permission_to_cloud m permission_data pid now).2)

/-- `app.services.permission_service.update_permission`: partial update of
`permission_level` / `is_active`, then `update_permission_in_cloud`. -/
def update_permission (db : Store) (m : Mirror) (permission_id : Nat)
    (permission_update : UserMachinePermissionUpdate) (now : Nat) :
    Option UserMachinePermission × Store × Mirror :=
  match db.perms.find? (fun p => p.id == permission_id) with
  | none => (none, db, m)
  | some p =>
    let p1 := match permission_update.permission_level with
      | some l => { p with permission_level := l }
      | none => p
    let p2 := match permission_update.is_active with
      | some b => { p1 with is_active := b }
      | none => p1
    let p3 := { p2 with updated_at := now }
    let permission_data : PermPayload :=
      { user_id := p3.user_id, machine_id := p3.machine_id,
        digital_key_id := p3.digital_key_id,
        permission_level := p3.permission_level.value,
        is_active := p3.is_active, updated_at := some now }
    (some p3,
      { db with perms := db.perms.map (fun q => if q.id == permission_id then p3 else q) },
      (update_permission_in_cloud m permission_data permission_id now).2)

/-- `app.services.permission_service.revoke_permission`: set
`is_active=False`, stamp `revoked_at=utcnow()`, push the update to the
cloud mirror; `False` when the row is absent. -/
def revoke_permission (db : Store) (m : Mirror) (permission_id : Nat)
    (now : Nat) : Bool × Store × Mirror :=
  match db.perms.find? (fun p => p.id == permission_id) with
  | none => (false, db, m)
  | some p =>
    let p3 := { p with is_active := false, revoked_at := some now, updated_at := now }
    let permission_data : PermPayload :=
      { user_id := p3.user_id, machine_id := p3.machine_id,
        digital_key_id := p3.digital_key_id,
        permission_level := p3.permission_level.value,
        is_active := p3.is_active, revoked_at := some now }
    (true,
      { db with perms := db.perms.map (fun q => if q.id == permission_id then p3 else q) },
      (update_permission_in_cloud m permission_data permission_id now).2)

/-- `app.services.permission_service.revoke_user_machine_access`: same row
mutation as `revoke_permission` on the first row of the (user, machine)
pair, but with no cloud write at all. -/
def revoke_user_machine_access (db : Store) (m : Mirror) (user_id : Nat)
    (machine_id : Nat) (now : Nat) : Bool × Store × Mirror :=
  match db.perms.find? (fun p => p.user_id == user_id && p.machine_id == machine_id) with
  | none => (false, db, m)
  | some p =>
    let p3 := { p with is_active := false, revoked_at := some now, updated_at := now }
    (true,
      { db with perms := db.perms.map (fun q => if q.id == p.id then p3 else q) },
      m)

/-- `app.services.permission_service.delete_permission`: hard delete of the
row, then `delete_permission_from_cloud` whose result is discarded. -/
def delete_permission (db : Store) (m : Mirror) (permission_id : Nat) :
    Bool × Store × Mirror :=
  match db.perms.find? (fun p => p.id == permission_id) with
  | none => (false, db, m)
  | some _ =>
    (true,
      { db with perms := db.perms.filter (fun p => p.id != permission_id) },
      (delete_permission_from_cloud m permission_id).2)

/-! ## Digital key service (`app.services.digital_key_service`) -/

/-- Outcome of `create_digital_key` / `update_digital_key`: the row, the
machine-validation error dict, or `None` (key id not found, update only). -/
inductive KeyServiceResult where
  | success (k : DigitalKey)
  | machineNotFound
  | keyNotFound
deriving DecidableEq, Repr

/-- `app.services.digital_key_service.create_digital_key`: validate the
machine exists, insert the key row, upload its snapshot. -/
def create_digital_key (db : Store) (m : Mirror) (digital_key : DigitalKeyCreate)
    (now : Nat) : KeyServiceResult × Store × Mirror :=
  match db.machines.find? (fun mc => mc.id == digital_key.machine_id) with
  | none => (.machineNotFound, db, m)
  | some _ =>
    let kid := freshKeyId db
    let k : DigitalKey :=
      { id := kid, key_name := digital_key.key_name,
        key_value := digital_key.key_value, owner := digital_key.owner,
        machine_id := digital_key.machine_id, created_at := now, updated_at := now }
    let data : KeyPayload :=
      { key_name := k.key_name, key_value := k.key_value,
        owner := k.owner, machine_id := k.machine_id }
    (.success k, { db with keys := db.keys ++ [k] },
      (upload_data_to_cloud m data k.id k.key_name now).2)

/-- `app.services.digital_key_service.update_digital_key`: validate the new
machine exists, delete the snapshot at the old `{id}_{name}` address, apply
all four fields, upload the new snapshot at the new address. -/
def update_digital_key (db : Store) (m : Mirror) (key_id : Nat)
    (digital_key : DigitalKeyCreate) (now : Nat) :
    KeyServiceResult × Store × Mirror :=
  match db.keys.find? (fun k => k.id == key_id) with
  | none => (.keyNotFound, db, m)
  | some db_digital_key =>
    match db.machines.find? (fun mc => mc.id == digital_key.machine_id) with
    | none => (.machineNotFound, db, m)
    | some _ =>
      let m1 := (delete_data_from_cloud m db_digital_key.id db_digital_key.key_name).2
      let k3 : DigitalKey :=
        { db_digital_key with
          key_name := digital_key.key_name, key_value := digital_key.key_value,
          owner := digital_key.owner, machine_id := digital_key.machine_id,
          updated_at := now }
      let data : KeyPayload :=
        { key_name := k3.key_name, key_value := k3.key_value,
          owner := k3.owner, machine_id := k3.machine_id }
      (.success k3,
        { db with keys := db.keys.map (fun q => if q.id == key_id then k3 else q) },
        (upload_data_to_cloud m1 data k3.id k3.key_name now).2)

/-- `app.services.digital_key_service.delete_digital_key`: delete the
mirror snapshot at the key's address, then delete the row. -/
def delete_digital_key (db : Store) (m : Mirror) (key_id : Nat) :
    Bool × Store × Mirror :=
  match db.keys.find? (fun k => k.id == key_id) with
  | none => (false, db, m)
  | some digital_key =>
    (true,
      { db with keys := db.keys.filter (fun k => k.id != key_id) },
      (delete_data_from_cloud m digital_key.id digital_key.key_name).2)

/-! ## Permissions endpoints (`app.api.v1.permissions`) -/

/-- Outcome of the `/permissions/grant` endpoint: each distinct
`HTTPException` branch, or the created row. -/
inductive GrantOutcome where
  | success (p : UserMachinePermission)
  | userNotFound
  | machineNotFound
  | keyNotFound
  | keyMachineMismatch
  | duplicateGrant
deriving DecidableEq, Repr

/-- `app.api.v1.permissions.grant_access`: validates user and machine
existence, then rejects when ANY permission row exists for the
(user, machine) pair (the query has no `is_active` filter), then delegates
to the service. -/
def grant_access (db : Store) (m : Mirror)
    (permission : UserMachinePermissionCreate) (now : Nat) :
    GrantOutcome × Store × Mirror :=
  match db.users.find? (fun u => u.id == permission.user_id) with
  | none => (.userNotFound, db, m)
  | some _ =>
    match db.machines.find? (fun mc => mc.id == permission.machine_id) with
    | none => (.machineNotFound, db, m)
    | some _ =>
      match db.perms.find? (fun p =>
          p.user_id == permission.user_id && p.machine_id == permission.machine_id) with
      | some _ => (.duplicateGrant, db, m)
      | none =>
        match grant_user_machine_access db m permission now with
        | (.success p, db2, m2) => (.success p, db2, m2)
        | (.keyNotFound, db2, m2) => (.keyNotFound, db2, m2)
        | (.keyMachineMismatch, db2, m2) => (.keyMachineMismatch, db2, m2)

/-- Row of the user access summary response. -/
def userAccessOf (user : User) (machine : Machine)
    (permission : UserMachinePermission) : UserAccessResponse :=
  { user_id := user.id, username := user.username,
    machine_id := machine.id, machine_name := machine.machine_name,
    permission_level := permission.permission_level,
    is_active := permission.is_active, created_at := permission.created_at }

/-- `app.api.v1.permissions.get_user_access_summary`: 404 (`none`) when the
user is absent; otherwise the loop over the user's active permissions,
appending an entry when the machine lookup succeeds and skipping silently
when it does not. -/
def get_user_access_summary (db : Store) (user_id : Nat) :
    Option (List UserAccessResponse) :=
  match db.users.find? (fun u => u.id == user_id) with
  | none => none
  | some user =>
    let permissions := db.perms.filter (fun p => p.user_id == user_id && p.is_active)
    some (permissions.foldl (fun access_list permission =>
      match db.machines.find? (fun mc => mc.id == permission.machine_id) with
      | some machine => access_list ++ [userAccessOf user machine permission]
      | none => access_list) [])

/-! ## Helper lemmas -/

/-- Filtering away key `i` leaves nothing that `find?` for key `i` can hit. -/
lemma find?_filter_key {α κ : Type} [DecidableEq κ] (f : α → κ) (l : List α) (i : κ) :
    (l.filter (fun x => f x != i)).find? (fun x => f x == i) = none := by
  rw [List.find?_eq_none]
  intro x hx
  have h := (List.mem_filter.mp hx).2
  simpa using h

/-- `find?` for key `i` over "everything but `i`, then a tail" scans only
the tail. -/
lemma find?_filter_key_append {α κ : Type} [DecidableEq κ] (f : α → κ) (l : List α)
    (i : κ) (xs : List α) :
    ((l.filter (fun x => f x != i)) ++ xs).find? (fun x => f x == i) =
      xs.find? (fun x => f x == i) := by
  rw [List.find?_append, find?_filter_key, Option.none_or]

/-- Replacing every element satisfying `c` by `p3` makes `find? c` return
`p3`, provided some element satisfied `c` and `p3` does. -/
lemma find?_map_replace {α : Type} (c : α → Bool) (l : List α) (p3 : α)
    (hex : ∃ x ∈ l, c x = true) (hp3 : c p3 = true) :
    (l.map (fun r => if c r then p3 else r)).find? c = some p3 := by
  induction l with
  | nil => simp at hex
  | cons a t ih =>
    by_cases h : c a = true
    · simp only [List.map_cons, if_pos h]
      exact List.find?_cons_of_pos _ hp3
    · simp only [List.map_cons, if_neg h]
      rw [List.find?_cons_of_neg _ (by simpa using h)]
      apply ih
      obtain ⟨x, hx, hcx⟩ := hex
      rcases List.mem_cons.mp hx with rfl | hxt
      · exact absurd hcx h
      · exact ⟨x, hxt, hcx⟩

/-- Two members with the same image under `f` are equal when the mapped
list has no duplicates. -/
lemma eq_of_nodup_map {α κ : Type} (f : α → κ) (l : List α)
    (h : (l.map f).Nodup) :
    ∀ a ∈ l, ∀ b ∈ l, f a = f b → a = b := by
  induction l with
  | nil => intro a ha; exact absurd ha (List.not_mem_nil a)
  | cons x t ih =>
    have hx : f x ∉ t.map f := (List.nodup_cons.mp (by simpa using h)).1
    have ht : (t.map f).Nodup := (List.nodup_cons.mp (by simpa using h)).2
    intro a ha b hb hf
    rcases List.mem_cons.mp ha with rfl | hat
    · rcases List.mem_cons.mp hb with rfl | hbt
      · rfl
      · exact absurd (hf ▸ List.mem_map_of_mem f hbt) hx
    · rcases List.mem_cons.mp hb with rfl | hbt
      · exact absurd (hf ▸ List.mem_map_of_mem f hat) hx
      · exact ih ht a hat b hbt hf

/-- A duplicate-free list whose elements are pairwise equal has at most one
element. -/
lemma length_le_one_of_nodup {α : Type} (l : List α) (h : l.Nodup)
    (he : ∀ a ∈ l, ∀ b ∈ l, a = b) : l.length ≤ 1 := by
  match l with
  | [] => simp
  | [a] => simp
  | a :: b :: t =>
    exfalso
    have hab : a = b := he a (by simp) b (by simp)
    have := (List.nodup_cons.mp h).1
    exact this (hab ▸ List.mem_cons_self b t)

/-- Convenient empty states for witnesses. -/
def emptyMirror : Mirror := ⟨[], [], [], []⟩

def emptyStore : Store := ⟨[], [], [], []⟩

def samplePayload : PermPayload :=
  { user_id := 1, machine_id := 2, digital_key_id := 3,
    permission_level := "read", is_active := true }

/-! ## Claim theorems -/

/-- C7: in the permissions bucket, a Write of payload `p` under an id
followed by a Read of the same id returns a snapshot whose `original_data`
equals `p`; a Delete of an id followed by a Read returns NotFound; and a
Delete of an id with no snapshot reports failure, not a no-op success. -/
theorem mirror_write_read_delete_laws
    (m m2 m3 : Mirror) (payload : PermPayload) (pid pid2 pid3 now : Nat)
    (h3 : m3.permFiles.find? (fun e => e.1 == pid3) = none) :
    (∃ snap, download_permission_from_cloud
        (upload_permission_to_cloud m payload pid now).2 pid = some snap ∧
        snap.original_data = payload) ∧
    download_permission_from_cloud (delete_permission_from_cloud m2 pid2).2 pid2 = none ∧
    (delete_permission_from_cloud m3 pid3).1 = false := by
  refine ⟨?_, ?_, ?_⟩
  · refine ⟨PermSnapshot.mk pid payload.user_id payload.machine_id
        payload.digital_key_id payload.permission_level payload.is_active now payload,
        ?_, rfl⟩
    unfold download_permission_from_cloud upload_permission_to_cloud
    rw [show (fun e : Nat × PermSnapshot => e.1 != pid) = (fun e => Prod.fst e != pid) from rfl]
    rw [find?_filter_key_append Prod.fst]
    rw [List.find?_cons_of_pos _ (by simp)]
    rfl
  · unfold delete_permission_from_cloud
    cases hfind : m2.permFiles.find? (fun e => e.1 == pid2) with
    | none => simpa [download_permission_from_cloud] using hfind
    | some e =>
      unfold download_permission_from_cloud
      rw [find?_filter_key Prod.fst]
      rfl
  · unfold delete_permission_from_cloud
    rw [h3]

/-- Witness for C7 at concrete inputs. -/
theorem mirror_write_read_delete_laws_witness :
    (∃ snap, download_permission_from_cloud
        (upload_permission_to_cloud emptyMirror samplePayload 7 5).2 7 = some snap ∧
        snap.original_data = samplePayload) ∧
    download_permission_from_cloud (delete_permission_from_cloud emptyMirror 7).2 7 = none ∧
    (delete_permission_from_cloud emptyMirror 7).1 = false :=
  mirror_write_read_delete_laws emptyMirror emptyMirror emptyMirror samplePayload 7 7 7 5 rfl

/-- Key bound to machine 1 while machine 2 is requested. -/
def mismatchKey : DigitalKey :=
  { id := 3, key_name := "k2", key_value := "v2", owner := "alice",
    machine_id := 1, created_at := 0, updated_at := 0 }

def mismatchStore : Store :=
  { users := [{ id := 1, username := "u", user_type := "user", email := "u@x" }],
    machines := [{ id := 1, machine_name := "A", machine_type := "server", is_active := 1 },
                 { id := 2, machine_name := "B", machine_type := "server", is_active := 1 }],
    keys := [mismatchKey], perms := [] }

def mismatchReq : UserMachinePermissionCreate :=
  { user_id := 1, machine_id := 2, digital_key_id := 3, permission_level := .read }

/-- C2: when the referenced digital key exists but its `machine_id` differs
from the requested machine, the grant service fails with the key-machine
mismatch outcome, leaving the Entity Store and the Mirror Store exactly as
they were (no Permission row, no mirror write). -/
theorem grant_mismatch_rejected_no_write (db : Store) (m : Mirror)
    (permission : UserMachinePermissionCreate) (now : Nat) (dk : DigitalKey)
    (hk : db.keys.find? (fun k => k.id == permission.digital_key_id) = some dk)
    (hmm : dk.machine_id ≠ permission.machine_id) :
    grant_user_machine_access db m permission now = (.keyMachineMismatch, db, m) := by
  unfold grant_user_machine_access
  rw [hk]
  simp [hmm]

/-- Witness for C2: user 1, machines A(1) and B(2), key "k2" bound to A,
grant requested against B. -/
theorem grant_mismatch_rejected_no_write_witness :
    grant_user_machine_access mismatchStore emptyMirror mismatchReq 4 =
      (.keyMachineMismatch, mismatchStore, emptyMirror) :=
  grant_mismatch_rejected_no_write mismatchStore emptyMirror mismatchReq 4 mismatchKey rfl (by decide)

/-- C6: deleting an existing permission removes the row, attempts the
mirror delete, and reports success for every mirror state — in particular
also when the mirror delete fails because the snapshot is absent; the
primary deletion is never rolled back. -/
theorem delete_permission_success_regardless_of_mirror
    (db : Store) (m : Mirror) (pid : Nat) (p : UserMachinePermission)
    (hp : db.perms.find? (fun q => q.id == pid) = some p) :
    (delete_permission db m pid).1 = true ∧
    (delete_permission db m pid).2.1.perms.find? (fun q => q.id == pid) = none ∧
    (delete_permission db m pid).2.2.permFiles.find? (fun e => e.1 == pid) = none := by
  unfold delete_permission
  rw [hp]
  refine ⟨rfl, ?_, ?_⟩
  · exact find?_filter_key (fun q : UserMachinePermission => q.id) _ pid
  · unfold delete_permission_from_cloud
    cases hfind : m.permFiles.find? (fun e => e.1 == pid) with
    | none => simpa using hfind
    | some e => exact find?_filter_key Prod.fst _ pid

def c6Perm : UserMachinePermission :=
  { id := 9, user_id := 1, machine_id := 2, digital_key_id := 3,
    permission_level := .read, is_active := true, created_at := 0,
    updated_at := 0, revoked_at := none }

def c6Store : Store := { users := [], machines := [], keys := [], perms := [c6Perm] }

/-- Witness for C6, with a mirror that lacks the snapshot (the mirror
delete fails, the operation still reports success). -/
theorem delete_permission_success_regardless_of_mirror_witness :
    (delete_permission c6Store emptyMirror 9).1 = true ∧
    (delete_permission c6Store emptyMirror 9).2.1.perms.find? (fun q => q.id == 9) = none ∧
    (delete_permission c6Store emptyMirror 9).2.2.permFiles.find? (fun e => e.1 == 9) = none :=
  delete_permission_success_regardless_of_mirror c6Store emptyMirror 9 c6Perm rfl

/-- C5: Update changes only the supplied fields — identity fields,
`created_at` and in particular `revoked_at` keep their prior values (a null
`revoked_at` stays null even when `is_active` is set to false) — and when
the permissions bucket holds a snapshot for the id, the full updated record
is re-mirrored. -/
theorem update_partial_frame_and_remirror
    (db : Store) (m : Mirror) (pid : Nat)
    (permission_update : UserMachinePermissionUpdate) (now : Nat)
    (p : UserMachinePermission)
    (hp : db.perms.find? (fun q => q.id == pid) = some p) :
    ∃ p3, (update_permission db m pid permission_update now).1 = some p3 ∧
      p3.permission_level = permission_update.permission_level.getD p.permission_level ∧
      p3.is_active = permission_update.is_active.getD p.is_active ∧
      p3.user_id = p.user_id ∧
      p3.machine_id = p.machine_id ∧
      p3.digital_key_id = p.digital_key_id ∧
      p3.created_at = p.created_at ∧
      p3.revoked_at = p.revoked_at ∧
      (update_permission db m pid permission_update now).2.1.perms.find? (fun q => q.id == pid) = some p3 ∧
      ((m.permFiles.find? (fun e => e.1 == pid)).isSome →
        download_permission_from_cloud (update_permission db m pid permission_update now).2.2 pid =
          some (PermSnapshot.mk pid p3.user_id p3.machine_id p3.digital_key_id
            p3.permission_level.value p3.is_active now
            (PermPayload.mk p3.user_id p3.machine_id p3.digital_key_id
              p3.permission_level.value p3.is_active none (some now) none))) := by
  cases hl : permission_update.permission_level with
  | none =>
    cases hb : permission_update.is_active with
    | none =>
      simp only [update_permission, hp, hl, hb]
      refine ⟨_, rfl, rfl, rfl, rfl, rfl, rfl, rfl, rfl, ?_, ?_⟩
      · have hpred := List.find?_some hp
        exact find?_map_replace _ _ _ ⟨p, List.mem_of_find?_eq_some hp, hpred⟩ hpred
      · intro hmp
        cases hfind : m.permFiles.find? (fun e => e.1 == pid) with
        | none => rw [hfind] at hmp; simp at hmp
        | some e =>
          simp only [update_permission_in_cloud, hfind]
          unfold download_permission_from_cloud
          rw [show (fun e : Nat × PermSnapshot => e.1 != pid) = (fun e => Prod.fst e != pid) from rfl]
          rw [find?_filter_key_append Prod.fst]
          rw [List.find?_cons_of_pos _ (by simp)]
          rfl
    | some b =>
      simp only [update_permission, hp, hl, hb]
      refine ⟨_, rfl, rfl, rfl, rfl, rfl, rfl, rfl, rfl, ?_, ?_⟩
      · have hpred := List.find?_some hp
        exact find?_map_replace _ _ _ ⟨p, List.mem_of_find?_eq_some hp, hpred⟩ hpred
      · intro hmp
        cases hfind : m.permFiles.find? (fun e => e.1 == pid) with
        | none => rw [hfind] at hmp; simp at hmp
        | some e =>
          simp only [update_permission_in_cloud, hfind]
          unfold download_permission_from_cloud
          rw [show (fun e : Nat × PermSnapshot => e.1 != pid) = (fun e => Prod.fst e != pid) from rfl]
          rw [find?_filter_key_append Prod.fst]
          rw [List.find?_cons_of_pos _ (by simp)]
          rfl
  | some l =>
    cases hb : permission_update.is_active with
    | none =>
      simp only [update_permission, hp, hl, hb]
      refine ⟨_, rfl, rfl, rfl, rfl, rfl, rfl, rfl, rfl, ?_, ?_⟩
      · have hpred := List.find?_some hp
        exact find?_map_replace _ _ _ ⟨p, List.mem_of_find?_eq_some hp, hpred⟩ hpred
      · intro hmp
        cases hfind : m.permFiles.find? (fun e => e.1 == pid) with
        | none => rw [hfind] at hmp; simp at hmp
        | some e =>
          simp only [update_permission_in_cloud, hfind]
          unfold download_permission_from_cloud
          rw [show (fun e : Nat × PermSnapshot => e.1 != pid) = (fun e => Prod.fst e != pid) from rfl]
          rw [find?_filter_key_append Prod.fst]
          rw [List.find?_cons_of_pos _ (by simp)]
          rfl
    | some b =>
      simp only [update_permission, hp, hl, hb]
      refine ⟨_, rfl, rfl, rfl, rfl, rfl, rfl, rfl, rfl, ?_, ?_⟩
      · have hpred := List.find?_some hp
        exact find?_map_replace _ _ _ ⟨p, List.mem_of_find?_eq_some hp, hpred⟩ hpred
      · intro hmp
        cases hfind : m.permFiles.find? (fun e => e.1 == pid) with
        | none => rw [hfind] at hmp; simp at hmp
        | some e =>
          simp only [update_permission_in_cloud, hfind]
          unfold download_permission_from_cloud
          rw [show (fun e : Nat × PermSnapshot => e.1 != pid) = (fun e => Prod.fst e != pid) from rfl]
          rw [find?_filter_key_append Prod.fst]
          rw [List.find?_cons_of_pos _ (by simp)]
          rfl

def c5Perm : UserMachinePermission :=
  { id := 4, user_id := 1, machine_id := 2, digital_key_id := 3,
    permission_level := .read, is_active := true, created_at := 0,
    updated_at := 0, revoked_at := none }

def c5Store : Store := { users := [], machines := [], keys := [], perms := [c5Perm] }

def c5Snap : PermSnapshot :=
  { id := 4, user_id := 1, machine_id := 2, digital_key_id := 3,
    permission_level := "read", is_active := true, stamped_at := 0,
    original_data := samplePayload }

def c5Mirror : Mirror := ⟨[], [], [(4, c5Snap)], []⟩

def c5Upd : UserMachinePermissionUpdate := { permission_level := none, is_active := some false }

/-- Witness for C5: deactivating via Update at a concrete state. -/
theorem update_partial_frame_and_remirror_witness :
    ∃ p3, (update_permission c5Store c5Mirror 4 c5Upd 6).1 = some p3 ∧
      p3.permission_level = c5Upd.permission_level.getD c5Perm.permission_level ∧
      p3.is_active = c5Upd.is_active.getD c5Perm.is_active ∧
      p3.user_id = c5Perm.user_id ∧
      p3.machine_id = c5Perm.machine_id ∧
      p3.digital_key_id = c5Perm.digital_key_id ∧
      p3.created_at = c5Perm.created_at ∧
      p3.revoked_at = c5Perm.revoked_at ∧
      (update_permission c5Store c5Mirror 4 c5Upd 6).2.1.perms.find? (fun q => q.id == 4) = some p3 ∧
      ((c5Mirror.permFiles.find? (fun e => e.1 == 4)).isSome →
        download_permission_from_cloud (update_permission c5Store c5Mirror 4 c5Upd 6).2.2 4 =
          some (PermSnapshot.mk 4 p3.user_id p3.machine_id p3.digital_key_id
            p3.permission_level.value p3.is_active 6
            (PermPayload.mk p3.user_id p3.machine_id p3.digital_key_id
              p3.permission_level.value p3.is_active none (some 6) none))) :=
  update_partial_frame_and_remirror c5Store c5Mirror 4 c5Upd 6 c5Perm rfl

/-- Shared shape of `revoke_permission` on an existing row: success, the
row re-found with `is_active=False` and `revoked_at` stamped, and the
mirror overwritten when its snapshot exists. -/
lemma revoke_permission_spec (db : Store) (m : Mirror) (pid now : Nat)
    (p : UserMachinePermission)
    (hp : db.perms.find? (fun q => q.id == pid) = some p) :
    (revoke_permission db m pid now).1 = true ∧
    (revoke_permission db m pid now).2.1.perms.find? (fun q => q.id == pid) =
      some { p with is_active := false, revoked_at := some now, updated_at := now } ∧
    ((m.permFiles.find? (fun e => e.1 == pid)).isSome →
      download_permission_from_cloud (revoke_permission db m pid now).2.2 pid =
        some (PermSnapshot.mk pid p.user_id p.machine_id p.digital_key_id
          p.permission_level.value false now
          (PermPayload.mk p.user_id p.machine_id p.digital_key_id
            p.permission_level.value false none none (some now)))) := by
  simp only [revoke_permission, hp]
  refine ⟨trivial, ?_, ?_⟩
  · have hpred := List.find?_some hp
    exact find?_map_replace _ _ _ ⟨p, List.mem_of_find?_eq_some hp, hpred⟩ hpred
  · intro hmp
    cases hfind : m.permFiles.find? (fun e => e.1 == pid) with
    | none => rw [hfind] at hmp; simp at hmp
    | some e =>
      simp only [update_permission_in_cloud, hfind]
      unfold download_permission_from_cloud
      rw [show (fun e : Nat × PermSnapshot => e.1 != pid) = (fun e => Prod.fst e != pid) from rfl]
      rw [find?_filter_key_append Prod.fst]
      rw [List.find?_cons_of_pos _ (by simp)]
      rfl

/-- C4: Revoke on an existing permission succeeds, sets `is_active=False`
and `revoked_at=now` (non-null and at or after `created_at`), and mirrors
the updated record; it is not idempotent — a second Revoke re-stamps
`revoked_at` to the new timestamp; RevokeByUserMachine applies the same
store mutation to the pair's row but performs no mirror write. -/
theorem revoke_semantics_and_mirror_asymmetry
    (db : Store) (m : Mirror) (pid now now2 : Nat) (p : UserMachinePermission)
    (db2 : Store) (m2 : Mirror) (uid mid : Nat) (q : UserMachinePermission)
    (hp : db.perms.find? (fun r => r.id == pid) = some p)
    (hnow : p.created_at ≤ now)
    (hq : db2.perms.find? (fun r => r.user_id == uid && r.machine_id == mid) = some q) :
    (revoke_permission db m pid now).1 = true ∧
    (∃ p3, (revoke_permission db m pid now).2.1.perms.find? (fun r => r.id == pid) = some p3 ∧
      p3.is_active = false ∧ p3.revoked_at = some now ∧ p3.created_at = p.created_at ∧
      ∃ t, p3.revoked_at = some t ∧ p.created_at ≤ t) ∧
    ((m.permFiles.find? (fun e => e.1 == pid)).isSome →
      ∃ snap, download_permission_from_cloud (revoke_permission db m pid now).2.2 pid = some snap ∧
        snap.is_active = false ∧ snap.original_data.revoked_at = some now) ∧
    ((revoke_permission (revoke_permission db m pid now).2.1
        (revoke_permission db m pid now).2.2 pid now2).1 = true ∧
     ∃ p4, (revoke_permission (revoke_permission db m pid now).2.1
        (revoke_permission db m pid now).2.2 pid now2).2.1.perms.find?
          (fun r => r.id == pid) = some p4 ∧ p4.revoked_at = some now2) ∧
    ((revoke_user_machine_access db2 m2 uid mid now).1 = true ∧
     (revoke_user_machine_access db2 m2 uid mid now).2.2 = m2 ∧
     ∃ q3, (revoke_user_machine_access db2 m2 uid mid now).2.1.perms.find?
        (fun r => r.id == q.id) = some q3 ∧
       q3.is_active = false ∧ q3.revoked_at = some now ∧
       q3.user_id = q.user_id ∧ q3.machine_id = q.machine_id ∧
       q3.permission_level = q.permission_level ∧ q3.created_at = q.created_at) := by
  obtain ⟨h1, h2, h3⟩ := revoke_permission_spec db m pid now p hp
  refine ⟨h1, ⟨_, h2, rfl, rfl, rfl, now, rfl, hnow⟩, ?_, ?_, ?_⟩
  · intro hmp
    exact ⟨_, h3 hmp, rfl, rfl⟩
  · obtain ⟨h4, h5, _⟩ := revoke_permission_spec _ _ pid now2 _ h2
    exact ⟨h4, _, h5, rfl⟩
  · simp only [revoke_user_machine_access, hq]
    exact ⟨trivial, trivial, _, find?_map_replace _ _ _
      ⟨q, List.mem_of_find?_eq_some hq, by simp⟩ (by simp), rfl, rfl, rfl, rfl, rfl, rfl⟩

def c4Perm : UserMachinePermission :=
  { id := 9, user_id := 1, machine_id := 2, digital_key_id := 3,
    permission_level := .read, is_active := true, created_at := 1,
    updated_at := 1, revoked_at := none }

def c4Store : Store := { users := [], machines := [], keys := [], perms := [c4Perm] }

def c4Snap : PermSnapshot :=
  { id := 9, user_id := 1, machine_id := 2, digital_key_id := 3,
    permission_level := "read", is_active := true, stamped_at := 1,
    original_data := samplePayload }

def c4Mirror : Mirror := ⟨[], [], [(9, c4Snap)], []⟩

/-- Witness for C4 at a concrete state (revoke at time 5, re-revoke at 8;
pair (1, 2) for the by-user-machine variant). -/
theorem revoke_semantics_and_mirror_asymmetry_witness :
    (revoke_permission c4Store c4Mirror 9 5).1 = true :=
  (revoke_semantics_and_mirror_asymmetry c4Store c4Mirror 9 5 8 c4Perm
    c4Store c4Mirror 1 2 c4Perm rfl (by decide) rfl).1

/-- C1 (amended): with user and machine present, the grant endpoint
returns the duplicate-grant outcome exactly when ANY permission row —
active or revoked — exists for the (user, machine) pair; since Revoke
keeps the row, a second Grant after a revocation is still rejected. -/
theorem grant_duplicate_iff_any_pair_row
    (db : Store) (m : Mirror) (permission : UserMachinePermissionCreate) (now : Nat)
    (u : User) (mc : Machine)
    (hu : db.users.find? (fun x => x.id == permission.user_id) = some u)
    (hm : db.machines.find? (fun x => x.id == permission.machine_id) = some mc) :
    ((grant_access db m permission now).1 = .duplicateGrant ↔
      (db.perms.find? (fun p =>
        p.user_id == permission.user_id && p.machine_id == permission.machine_id)).isSome) := by
  simp only [grant_access, hu, hm]
  cases hdup : db.perms.find? (fun p =>
      p.user_id == permission.user_id && p.machine_id == permission.machine_id) with
  | some r => simp
  | none =>
    rcases hsvc : grant_user_machine_access db m permission now with ⟨res, db2, m2⟩
    cases res <;> simp

def c1User : User := ⟨1, "u1", "user", "u1@x"⟩

def c1Machine : Machine := ⟨1, "db-01", "database", 1⟩

def c1Key : DigitalKey := ⟨1, "k1", "v1", "alice", 1, 0, 0⟩

/-- Pre-state of the §8 scenario: machine "db-01", key "k1" bound to it,
no permission yet. -/
def c1Store0 : Store := ⟨[c1User], [c1Machine], [c1Key], []⟩

def c1Req : UserMachinePermissionCreate := ⟨1, 1, 1, .read⟩

/-- Run of the scenario: Grant at t=1, then Revoke of row 1 at t=2. -/
def c1AfterGrant : GrantOutcome × Store × Mirror :=
  grant_access c1Store0 emptyMirror c1Req 1

def c1AfterRevoke : Bool × Store × Mirror :=
  revoke_permission c1AfterGrant.2.1 c1AfterGrant.2.2 1 2

/-- Counterexample to C1 as stated: after the pair's only permission has
been revoked (so no currently-active permission exists), the second Grant
does not succeed — it is rejected with the duplicate outcome, because the
endpoint's duplicate query has no `is_active` filter. -/
theorem grant_after_revoke_rejected_cex :
    c1AfterGrant.1 = GrantOutcome.success ⟨1, 1, 1, 1, .read, true, 1, 1, none⟩ ∧
    c1AfterRevoke.1 = true ∧
    c1AfterRevoke.2.1.perms.find?
      (fun p => p.user_id == 1 && p.machine_id == 1 && p.is_active) = none ∧
    (grant_access c1AfterRevoke.2.1 c1AfterRevoke.2.2 c1Req 3).1 =
      GrantOutcome.duplicateGrant := by decide

/-- Witness for C1 (amended) at the post-revoke state. -/
theorem grant_duplicate_iff_any_pair_row_witness :
    ((grant_access c1AfterRevoke.2.1 c1AfterRevoke.2.2 c1Req 3).1 = .duplicateGrant ↔
      (c1AfterRevoke.2.1.perms.find? (fun p =>
        p.user_id == c1Req.user_id && p.machine_id == c1Req.machine_id)).isSome) :=
  grant_duplicate_iff_any_pair_row c1AfterRevoke.2.1 c1AfterRevoke.2.2 c1Req 3
    c1User c1Machine rfl rfl

/-- C3 (amended): when user, machine and key exist, the key is bound to
the requested machine, and NO permission row at all (active or revoked)
exists for the pair, Grant succeeds: the new row has `is_active=true` and
`revoked_at=null`, it is appended to the Entity Store, and its snapshot is
written through to the permissions bucket of the Mirror Store. -/
theorem grant_success_on_fresh_pair
    (db : Store) (m : Mirror) (permission : UserMachinePermissionCreate) (now : Nat)
    (u : User) (mc : Machine) (dk : DigitalKey)
    (hu : db.users.find? (fun x => x.id == permission.user_id) = some u)
    (hm : db.machines.find? (fun x => x.id == permission.machine_id) = some mc)
    (hdup : db.perms.find? (fun p =>
      p.user_id == permission.user_id && p.machine_id == permission.machine_id) = none)
    (hk : db.keys.find? (fun k => k.id == permission.digital_key_id) = some dk)
    (hbind : dk.machine_id = permission.machine_id) :
    ∃ p, (grant_access db m permission now).1 = .success p ∧
      p.is_active = true ∧ p.revoked_at = none ∧
      p.user_id = permission.user_id ∧ p.machine_id = permission.machine_id ∧
      p.digital_key_id = permission.digital_key_id ∧
      p.permission_level = permission.permission_level ∧
      (grant_access db m permission now).2.1.perms = db.perms ++ [p] ∧
      (∃ snap, download_permission_from_cloud (grant_access db m permission now).2.2 p.id
          = some snap ∧
        snap.original_data = PermPayload.mk permission.user_id permission.machine_id
          permission.digital_key_id permission.permission_level.value true (some now) none none ∧
        snap.is_active = true) := by
  simp only [grant_access, hu, hm, hdup, grant_user_machine_access, hk, hbind,
    bne_self_eq_false, Bool.false_eq_true, if_false]
  refine ⟨_, rfl, rfl, rfl, rfl, rfl, rfl, rfl, rfl,
    PermSnapshot.mk (freshPermId db) permission.user_id permission.machine_id
      permission.digital_key_id permission.permission_level.value true now
      (PermPayload.mk permission.user_id permission.machine_id permission.digital_key_id
        permission.permission_level.value true (some now) none none), ?_, rfl, rfl⟩
  unfold download_permission_from_cloud upload_permission_to_cloud
  rw [show (fun e : Nat × PermSnapshot => e.1 != freshPermId db) =
    (fun e => Prod.fst e != freshPermId db) from rfl]
  rw [find?_filter_key_append Prod.fst]
  rw [List.find?_cons_of_pos _ (by simp)]
  rfl

/-- Counterexample to C3 as stated: at the post-revoke state every
hypothesis of C3 holds — user, machine and bound key exist and no ACTIVE
permission exists for the pair — yet Grant does not succeed. -/
theorem grant_fresh_active_pair_cex :
    (c1AfterRevoke.2.1.users.find? (fun x => x.id == 1)).isSome = true ∧
    (c1AfterRevoke.2.1.machines.find? (fun x => x.id == 1)).isSome = true ∧
    c1AfterRevoke.2.1.keys.find? (fun k => k.id == 1) = some c1Key ∧
    c1Key.machine_id = 1 ∧
    c1AfterRevoke.2.1.perms.find?
      (fun p => p.user_id == 1 && p.machine_id == 1 && p.is_active) = none ∧
    (grant_access c1AfterRevoke.2.1 c1AfterRevoke.2.2 c1Req 3).1 =
      GrantOutcome.duplicateGrant := by decide

/-- Witness for C3 (amended) at the fresh pre-state of the scenario. -/
theorem grant_success_on_fresh_pair_witness :
    ∃ p, (grant_access c1Store0 emptyMirror c1Req 1).1 = .success p ∧
      p.is_active = true ∧ p.revoked_at = none ∧
      p.user_id = c1Req.user_id ∧ p.machine_id = c1Req.machine_id ∧
      p.digital_key_id = c1Req.digital_key_id ∧
      p.permission_level = c1Req.permission_level ∧
      (grant_access c1Store0 emptyMirror c1Req 1).2.1.perms = c1Store0.perms ++ [p] ∧
      (∃ snap, download_permission_from_cloud (grant_access c1Store0 emptyMirror c1Req 1).2.2 p.id
          = some snap ∧
        snap.original_data = PermPayload.mk c1Req.user_id c1Req.machine_id
          c1Req.digital_key_id c1Req.permission_level.value true (some 1) none none ∧
        snap.is_active = true) :=
  grant_success_on_fresh_pair c1Store0 emptyMirror c1Req 1 c1User c1Machine c1Key
    rfl rfl rfl rfl rfl

/-- C8: creating or updating a DigitalKey whose `machine_id` has no Machine
record fails with the machine-not-found outcome before any store mutation
(stores and mirror returned untouched); when the machine does exist,
update succeeds and rebinds the key to the requested machine. -/
theorem digital_key_machine_validation
    (db1 : Store) (m1 : Mirror) (req1 : DigitalKeyCreate) (now1 : Nat)
    (db2 : Store) (m2 : Mirror) (req2 : DigitalKeyCreate) (kid2 now2 : Nat) (k2 : DigitalKey)
    (db3 : Store) (m3 : Mirror) (req3 : DigitalKeyCreate) (kid3 now3 : Nat)
    (k3 : DigitalKey) (mc3 : Machine)
    (h1 : db1.machines.find? (fun mc => mc.id == req1.machine_id) = none)
    (h2k : db2.keys.find? (fun k => k.id == kid2) = some k2)
    (h2m : db2.machines.find? (fun mc => mc.id == req2.machine_id) = none)
    (h3k : db3.keys.find? (fun k => k.id == kid3) = some k3)
    (h3m : db3.machines.find? (fun mc => mc.id == req3.machine_id) = some mc3) :
    create_digital_key db1 m1 req1 now1 = (.machineNotFound, db1, m1) ∧
    update_digital_key db2 m2 kid2 req2 now2 = (.machineNotFound, db2, m2) ∧
    (∃ k4, (update_digital_key db3 m3 kid3 req3 now3).1 = .success k4 ∧
      k4.id = k3.id ∧ k4.machine_id = req3.machine_id ∧
      k4.key_name = req3.key_name ∧ k4.key_value = req3.key_value ∧
      k4.owner = req3.owner) := by
  refine ⟨?_, ?_, ?_⟩
  · unfold create_digital_key; rw [h1]
  · unfold update_digital_key; rw [h2k, h2m]
  · simp only [update_digital_key, h3k, h3m]
    exact ⟨_, rfl, rfl, rfl, rfl, rfl, rfl⟩

def c8Machine1 : Machine := ⟨1, "A", "server", 1⟩

def c8Machine2 : Machine := ⟨2, "B", "server", 1⟩

def c8Key : DigitalKey := ⟨1, "k", "v", "o", 1, 0, 0⟩

def c8Store : Store := ⟨[], [c8Machine1, c8Machine2], [c8Key], []⟩

def c8StoreNoMachines : Store := ⟨[], [], [c8Key], []⟩

/-- Request that rebinds key 1 (created for machine 1) to machine 2. -/
def c8ReqRebind : DigitalKeyCreate := ⟨"k", "v", "o", 2⟩

/-- Witness for C8: create/update against a store with no machines fail
untouched; update against the two-machine store rebinds key 1 from machine
1 to machine 2. -/
theorem digital_key_machine_validation_witness :
    create_digital_key c8StoreNoMachines emptyMirror c8ReqRebind 0 =
      (.machineNotFound, c8StoreNoMachines, emptyMirror) ∧
    update_digital_key c8StoreNoMachines emptyMirror 1 c8ReqRebind 0 =
      (.machineNotFound, c8StoreNoMachines, emptyMirror) ∧
    (∃ k4, (update_digital_key c8Store emptyMirror 1 c8ReqRebind 5).1 = .success k4 ∧
      k4.id = c8Key.id ∧ k4.machine_id = c8ReqRebind.machine_id ∧
      k4.key_name = c8ReqRebind.key_name ∧ k4.key_value = c8ReqRebind.key_value ∧
      k4.owner = c8ReqRebind.owner) :=
  digital_key_machine_validation c8StoreNoMachines emptyMirror c8ReqRebind 0
    c8StoreNoMachines emptyMirror c8ReqRebind 1 0 c8Key
    c8Store emptyMirror c8ReqRebind 1 5 c8Key c8Machine2
    rfl rfl rfl rfl rfl

/-- The summary endpoint's accumulator loop, rewritten as a `filterMap`
over the machine join. -/
lemma summary_loop_eq (db : Store) (user : User) (l : List UserMachinePermission) :
    ∀ acc : List UserAccessResponse,
      l.foldl (fun access_list permission =>
        match db.machines.find? (fun mc => mc.id == permission.machine_id) with
        | some machine => access_list ++ [userAccessOf user machine permission]
        | none => access_list) acc
      = acc ++ l.filterMap (fun permission =>
          (db.machines.find? (fun mc => mc.id == permission.machine_id)).map
            (fun machine => userAccessOf user machine permission)) := by
  induction l with
  | nil => intro acc; simp
  | cons x t ih =>
    intro acc
    simp only [List.foldl_cons, List.filterMap_cons]
    cases hg : db.machines.find? (fun mc => mc.id == x.machine_id) with
    | none => simpa using ih acc
    | some machine =>
      rw [ih (acc ++ [userAccessOf user machine x])]
      simp

/-- C9: for an existing user, the access summary is exactly one entry per
`is_active=true` permission of the user whose machine still exists (the
machine join drops the others silently, with no error outcome), and every
returned entry shows `is_active = true` — deactivated permissions are
never included. -/
theorem user_access_summary_characterization
    (db : Store) (uid : Nat) (user : User)
    (hu : db.users.find? (fun u => u.id == uid) = some user) :
    get_user_access_summary db uid =
      some ((db.perms.filter (fun p => p.user_id == uid && p.is_active)).filterMap
        (fun permission => (db.machines.find? (fun mc => mc.id == permission.machine_id)).map
          (fun machine => userAccessOf user machine permission))) ∧
    (∀ l, get_user_access_summary db uid = some l → ∀ e ∈ l, e.is_active = true) := by
  have hmain : get_user_access_summary db uid =
      some ((db.perms.filter (fun p => p.user_id == uid && p.is_active)).filterMap
        (fun permission => (db.machines.find? (fun mc => mc.id == permission.machine_id)).map
          (fun machine => userAccessOf user machine permission))) := by
    simp only [get_user_access_summary, hu]
    rw [summary_loop_eq]
    simp
  refine ⟨hmain, ?_⟩
  intro l hl e he
  rw [hmain] at hl
  injection hl with hl
  subst hl
  obtain ⟨permission, hpm, hpe⟩ := List.mem_filterMap.mp he
  have hact : permission.is_active = true := by
    have h2 := (List.mem_filter.mp hpm).2
    simp only [Bool.and_eq_true] at h2
    exact h2.2
  obtain ⟨machine, _, hrw⟩ := Option.map_eq_some'.mp hpe
  rw [← hrw]
  exact hact

def c9User : User := ⟨1, "bob", "user", "b@x"⟩

def c9MachineA : Machine := ⟨1, "A", "server", 1⟩

def c9PermActive : UserMachinePermission := ⟨1, 1, 1, 1, .read, true, 0, 0, none⟩

/-- Active permission whose machine (id 99) no longer exists. -/
def c9PermGone : UserMachinePermission := ⟨2, 1, 99, 1, .write, true, 0, 0, none⟩

def c9PermInactive : UserMachinePermission := ⟨3, 1, 1, 1, .admin, false, 0, 0, some 1⟩

def c9Store : Store :=
  ⟨[c9User], [c9MachineA], [], [c9PermActive, c9PermGone, c9PermInactive]⟩

/-- Witness for C9: the summary lists only the active permission whose
machine exists; the orphaned one and the inactive one are dropped. -/
theorem user_access_summary_characterization_witness :
    get_user_access_summary c9Store 1 = some [userAccessOf c9User c9MachineA c9PermActive] :=
  ((user_access_summary_characterization c9Store 1 c9User rfl).1).trans (by decide)

/-! ## C10: the digital-keys bucket never holds two snapshots for one key -/

/-- The mirror address of a key row, as composed by the cloud helpers. -/
def keyAddrOf (k : DigitalKey) : KeyAddress := ⟨k.id, sanitize k.key_name⟩

/-- Invariant tying the digital-keys bucket to the key table: key ids are
unique, snapshot addresses are unique, and every snapshot sits at the
address derived from a live key row. -/
def MirrorKeysInv (db : Store) (m : Mirror) : Prop :=
  (db.keys.map DigitalKey.id).Nodup ∧
  (m.keyFiles.map Prod.fst).Nodup ∧
  ∀ e ∈ m.keyFiles, ∃ k ∈ db.keys, e.1 = keyAddrOf k

/-- At most one snapshot file per digital key id in the keys bucket. -/
def atMostOneSnapshotPerKey (m : Mirror) : Prop :=
  ∀ i : Nat, (m.keyFiles.filter (fun e => e.1.id == i)).length ≤ 1

lemma atMostOne_of_inv (db : Store) (m : Mirror) (h : MirrorKeysInv db m) :
    atMostOneSnapshotPerKey m := by
  obtain ⟨hids, haddrs, hpt⟩ := h
  intro i
  apply length_le_one_of_nodup
  · exact (List.Nodup.of_map Prod.fst haddrs).filter _
  · intro a ha b hb
    have haK := List.mem_of_mem_filter ha
    have hbK := List.mem_of_mem_filter hb
    have hai : a.1.id = i := by simpa using (List.mem_filter.mp ha).2
    have hbi : b.1.id = i := by simpa using (List.mem_filter.mp hb).2
    obtain ⟨ka, hka, hae⟩ := hpt a haK
    obtain ⟨kb, hkb, hbe⟩ := hpt b hbK
    have h1 : ka.id = i := by rw [hae] at hai; exact hai
    have h2 : kb.id = i := by rw [hbe] at hbi; exact hbi
    have hks : ka = kb :=
      eq_of_nodup_map DigitalKey.id db.keys hids ka hka kb hkb (by rw [h1, h2])
    have haddr : a.1 = b.1 := by rw [hae, hbe, hks]
    exact eq_of_nodup_map Prod.fst m.keyFiles haddrs a haK b hbK haddr

lemma id_le_foldr_max (l : List DigitalKey) (k : DigitalKey) (hk : k ∈ l) :
    k.id ≤ l.foldr (fun x a => max x.id a) 0 := by
  induction l with
  | nil => cases hk
  | cons x t ih =>
    rcases List.mem_cons.mp hk with rfl | ht
    · simp only [List.foldr_cons]; exact le_max_left _ _
    · simp only [List.foldr_cons]; exact le_trans (ih ht) (le_max_right _ _)

/-- An overwrite-style upload keeps the bucket's addresses duplicate-free. -/
lemma upload_keyFiles_nodup (l : List (KeyAddress × KeySnapshot)) (addr : KeyAddress)
    (snap : KeySnapshot) (h : (l.map Prod.fst).Nodup) :
    (((l.filter (fun e => e.1 != addr)) ++ [(addr, snap)]).map Prod.fst).Nodup := by
  rw [List.map_append]
  apply List.Nodup.append
  · exact h.sublist ((List.filter_sublist l).map Prod.fst)
  · simp
  · intro x hx hx2
    have hxa : x = addr := by simpa using hx2
    obtain ⟨e, he, hefst⟩ := List.mem_map.mp hx
    have hne := (List.mem_filter.mp he).2
    rw [hefst, hxa] at hne
    simp at hne

/-- The cloud delete keeps only entries away from the deleted address. -/
lemma delete_data_keyFiles_sub (m : Mirror) (kid : Nat) (kname : String) :
    ∀ e ∈ ((delete_data_from_cloud m kid kname).2).keyFiles,
      e ∈ m.keyFiles ∧ e.1 ≠ KeyAddress.mk kid (sanitize kname) := by
  intro e he
  simp only [delete_data_from_cloud] at he
  cases hfind : m.keyFiles.find? (fun e => e.1 == (⟨kid, sanitize kname⟩ : KeyAddress)) with
  | none =>
    rw [hfind] at he
    refine ⟨he, ?_⟩
    have := List.find?_eq_none.mp hfind e he
    simpa using this
  | some x =>
    rw [hfind] at he
    exact ⟨List.mem_of_mem_filter he, by simpa using (List.mem_filter.mp he).2⟩

lemma delete_data_keyFiles_nodup (m : Mirror) (kid : Nat) (kname : String)
    (h : (m.keyFiles.map Prod.fst).Nodup) :
    ((delete_data_from_cloud m kid kname).2.keyFiles.map Prod.fst).Nodup := by
  simp only [delete_data_from_cloud]
  cases hfind : m.keyFiles.find? (fun e => e.1 == (⟨kid, sanitize kname⟩ : KeyAddress)) with
  | none => exact h
  | some x => exact h.sublist ((List.filter_sublist m.keyFiles).map Prod.fst)

/-- Replacing the row with id `kid` by a row with the same id keeps the id
column unchanged. -/
lemma map_replace_ids (db : Store) (kid : Nat) (k3 : DigitalKey) (hk3 : k3.id = kid) :
    (db.keys.map (fun q => if q.id == kid then k3 else q)).map DigitalKey.id =
      db.keys.map DigitalKey.id := by
  rw [List.map_map]
  apply List.map_congr_left
  intro q hq
  by_cases h : (q.id == kid) = true
  · have hq2 : q.id = kid := by simpa using h
    simp [Function.comp, h, hk3, hq2]
  · simp [Function.comp, h]

lemma inv_create (db : Store) (m : Mirror) (req : DigitalKeyCreate) (now : Nat)
    (h : MirrorKeysInv db m) :
    MirrorKeysInv (create_digital_key db m req now).2.1
      (create_digital_key db m req now).2.2 := by
  cases hm : db.machines.find? (fun mc => mc.id == req.machine_id) with
  | none => simpa only [create_digital_key, hm] using h
  | some mc =>
    obtain ⟨hids, haddrs, hpt⟩ := h
    simp only [create_digital_key, hm, upload_data_to_cloud]
    refine ⟨?_, ?_, ?_⟩
    · rw [List.map_append]
      apply List.Nodup.append hids (by simp)
      intro i hi hi2
      have hi3 : i = freshKeyId db := by simpa using hi2
      subst hi3
      obtain ⟨k0, hk0, hk0id⟩ := List.mem_map.mp hi
      have hle := id_le_foldr_max db.keys k0 hk0
      rw [hk0id] at hle
      unfold freshKeyId at hle
      omega
    · exact upload_keyFiles_nodup _ _ _ haddrs
    · intro e he
      rcases List.mem_append.mp he with hl | hr
      · obtain ⟨k0, hk0, he0⟩ := hpt e (List.mem_of_mem_filter hl)
        exact ⟨k0, List.mem_append.mpr (Or.inl hk0), he0⟩
      · have he2 : e = (⟨freshKeyId db, sanitize req.key_name⟩,
            KeySnapshot.mk (freshKeyId db) req.key_name req.owner now
              (KeyPayload.mk req.key_name req.key_value req.owner req.machine_id)) := by
          simpa using hr
        subst he2
        exact ⟨DigitalKey.mk (freshKeyId db) req.key_name req.key_value req.owner
            req.machine_id now now,
          List.mem_append.mpr (Or.inr (by simp)), rfl⟩

lemma inv_update (db : Store) (m : Mirror) (kid : Nat) (req : DigitalKeyCreate)
    (now : Nat) (h : MirrorKeysInv db m) :
    MirrorKeysInv (update_digital_key db m kid req now).2.1
      (update_digital_key db m kid req now).2.2 := by
  cases hk : db.keys.find? (fun k => k.id == kid) with
  | none => simpa only [update_digital_key, hk] using h
  | some k =>
    cases hm : db.machines.find? (fun mc => mc.id == req.machine_id) with
    | none => simpa only [update_digital_key, hk, hm] using h
    | some mc =>
      obtain ⟨hids, haddrs, hpt⟩ := h
      have hkmem := List.mem_of_find?_eq_some hk
      have hkid : k.id = kid := by simpa using List.find?_some hk
      simp only [update_digital_key, hk, hm, upload_data_to_cloud]
      refine ⟨?_, ?_, ?_⟩
      · rw [map_replace_ids db kid (DigitalKey.mk k.id req.key_name req.key_value
          req.owner req.machine_id k.created_at now) hkid]
        exact hids
      · exact upload_keyFiles_nodup _ _ _ (delete_data_keyFiles_nodup m k.id k.key_name haddrs)
      · intro e he
        rcases List.mem_append.mp he with hl | hr
        · obtain ⟨he2, hne⟩ :=
            delete_data_keyFiles_sub m k.id k.key_name e (List.mem_of_mem_filter hl)
          obtain ⟨k0, hk0, he0⟩ := hpt e he2
          have hk0ne : ¬ (k0.id == kid) = true := by
            intro hcontra
            have hkk : k0 = k :=
              eq_of_nodup_map DigitalKey.id db.keys hids k0 hk0 k hkmem
                (by rw [hkid]; simpa using hcontra)
            apply hne
            rw [he0, hkk]
            rfl
          refine ⟨k0, ?_, he0⟩
          exact List.mem_map.mpr ⟨k0, hk0, by simp [hk0ne]⟩
        · have he2 : e = (⟨k.id, sanitize req.key_name⟩,
              KeySnapshot.mk k.id req.key_name req.owner now
                (KeyPayload.mk req.key_name req.key_value req.owner req.machine_id)) := by
            simpa using hr
          subst he2
          refine ⟨DigitalKey.mk k.id req.key_name req.key_value req.owner
              req.machine_id k.created_at now, ?_, rfl⟩
          exact List.mem_map.mpr ⟨k, hkmem, by simp [hkid]⟩

lemma inv_delete (db : Store) (m : Mirror) (kid : Nat) (h : MirrorKeysInv db m) :
    MirrorKeysInv (delete_digital_key db m kid).2.1 (delete_digital_key db m kid).2.2 := by
  cases hk : db.keys.find? (fun k => k.id == kid) with
  | none => simpa only [delete_digital_key, hk] using h
  | some k =>
    obtain ⟨hids, haddrs, hpt⟩ := h
    have hkmem := List.mem_of_find?_eq_some hk
    have hkid : k.id = kid := by simpa using List.find?_some hk
    simp only [delete_digital_key, hk]
    refine ⟨?_, ?_, ?_⟩
    · exact hids.sublist ((List.filter_sublist db.keys).map DigitalKey.id)
    · exact delete_data_keyFiles_nodup m k.id k.key_name haddrs
    · intro e he
      obtain ⟨he2, hne⟩ := delete_data_keyFiles_sub m k.id k.key_name e he
      obtain ⟨k0, hk0, he0⟩ := hpt e he2
      have hk0ne : ¬ (k0.id == kid) = true := by
        intro hcontra
        have hkk : k0 = k :=
          eq_of_nodup_map DigitalKey.id db.keys hids k0 hk0 k hkmem
            (by rw [hkid]; simpa using hcontra)
        apply hne
        rw [he0, hkk]
        rfl
      refine ⟨k0, ?_, he0⟩
      rw [List.mem_filter]
      exact ⟨hk0, by simpa using hk0ne⟩

/-- C10: the digital-keys bucket holds at most one snapshot per key, and
every key operation — create, update (which deletes the snapshot at the
old id/name address before writing the new one, so a rename or rebind
leaves no orphan), delete — preserves the bucket/table invariant and
therefore the at-most-one-snapshot property. -/
theorem keys_mirror_at_most_one_snapshot
    (db : Store) (m : Mirror) (req : DigitalKeyCreate) (kid now : Nat)
    (h : MirrorKeysInv db m) :
    atMostOneSnapshotPerKey m ∧
    (MirrorKeysInv (create_digital_key db m req now).2.1
        (create_digital_key db m req now).2.2 ∧
      atMostOneSnapshotPerKey (create_digital_key db m req now).2.2) ∧
    (MirrorKeysInv (update_digital_key db m kid req now).2.1
        (update_digital_key db m kid req now).2.2 ∧
      atMostOneSnapshotPerKey (update_digital_key db m kid req now).2.2) ∧
    (MirrorKeysInv (delete_digital_key db m kid).2.1
        (delete_digital_key db m kid).2.2 ∧
      atMostOneSnapshotPerKey (delete_digital_key db m kid).2.2) := by
  have h1 := inv_create db m req now h
  have h2 := inv_update db m kid req now h
  have h3 := inv_delete db m kid h
  exact ⟨atMostOne_of_inv db m h, ⟨h1, atMostOne_of_inv _ _ h1⟩,
    ⟨h2, atMostOne_of_inv _ _ h2⟩, ⟨h3, atMostOne_of_inv _ _ h3⟩⟩

/-- Witness for C10: after an update that renames/rebinds key 1, its
bucket still holds at most one snapshot per key id. -/
theorem keys_mirror_at_most_one_snapshot_witness :
    atMostOneSnapshotPerKey (update_digital_key c8Store emptyMirror 1 c8ReqRebind 3).2.2 :=
  (keys_mirror_at_most_one_snapshot c8Store emptyMirror c8ReqRebind 1 3
    ⟨by decide, by decide, fun e he => absurd he (List.not_mem_nil e)⟩).2.2.1.2

end DKB
